import Mathlib

/-!
Verification development for the httpulse HTTP probing dashboard.

Shallow embedding of the core data model and operations:
  - `src/probe.rs`                                (samples, error taxonomy)
  - `src/features/metrics/aggregate/store.rs`     (MetricsStore)
  - `src/features/metrics/mod.rs`                 (MetricStats)
  - `src/features/probe/engine/client.rs`         (ProbeClient, BodyCollector)
  - `src/features/probe/engine/helpers.rs`        (error classification)
  - `src/runtime.rs`                              (profile worker loop)
  - `src/settings/mod.rs`, `src/main.rs`          (CLI handling)
  - `src/config.rs`                               (SecretString)
  - `src/features/app/state.rs`                   (AppState::apply_sample)

Modelling conventions: machine integers (u16/u32/u64/usize) are `Nat`
with explicit saturation where the source saturates; `Duration` and
`SystemTime` are `Nat` (nanoseconds; `Duration::checked_sub(..).unwrap_or(0)`
is `Nat` truncated subtraction); `f64` values produced by exact integer
casts and a single division are modelled in `ℚ`; Rust `String` is `String`
or `List Char`; `Uuid` identifiers are `Nat`.
-/

set_option maxHeartbeats 1000000

namespace HttPulse

/-- The closed probe error taxonomy (`src/probe.rs`, `ProbeErrorKind`). -/
inductive ProbeErrorKind
  | dnsTimeout
  | dnsNxDomain
  | dnsServFail
  | dnsOther
  | connectTimeout
  | connectRefused
  | connectNoRoute
  | connectOther
  | tlsHandshakeFailed
  | tlsVersionMismatch
  | alpnFailed
  | httpTimeout
  | httpProtocolError
  | httpStatusError
  | readTimeout
  | ioError
  deriving DecidableEq, Repr

/-- `ProbeError` (`src/probe.rs`): a kind plus the transport message. -/
structure ProbeError where
  kind : ProbeErrorKind
  message : String
  deriving DecidableEq, Repr

/-- `ProbeResult` (`src/probe.rs`). -/
inductive ProbeResult
  | ok
  | err (e : ProbeError)
  deriving DecidableEq, Repr

/-- Socket address: only the fields the embedded code inspects (ip, port).
The ip is an abstract identifier. -/
structure SocketAddr where
  ip : Nat
  port : Nat
  deriving DecidableEq, Repr

/-- `ProbeSample` (`src/probe.rs`), with the fields the verified operations
read or write.  `ts` is a `SystemTime` as nanoseconds since the epoch,
durations are nanoseconds. -/
structure ProbeSample where
  ts : Nat
  target_id : Nat
  profile_id : Nat
  result : ProbeResult
  http_status : Option Nat := none
  t_dns : Option Nat := none
  t_connect : Nat := 0
  t_tls : Option Nat := none
  t_ttfb : Nat := 0
  t_download : Nat := 0
  t_total : Nat := 0
  downloaded_bytes : Nat := 0
  remote : Option SocketAddr := none
  deriving DecidableEq, Repr

/-! ## MetricsStore (`src/features/metrics/aggregate/store.rs`) -/

/-- `ProfileKey` (store.rs lines 9-13). -/
structure ProfileKey where
  target_id : Nat
  profile_id : Nat
  deriving DecidableEq, Repr

/-- `MetricsStore`: the `HashMap<ProfileKey, VecDeque<ProbeSample>>` is a
total function with `[]` standing for an absent entry (matching
`entry(key).or_default()` on write and `samples.get(&key)` yielding no
samples on read). The `VecDeque` front is the list head. -/
def MetricsStore := ProfileKey → List ProbeSample

/-- `MetricsStore::new`. -/
def MetricsStore.new : MetricsStore := fun _ => []

/-- The eviction loop of `push_sample`:
`while queue.len() > max_points { queue.pop_front(); }` (store.rs 30-32). -/
def popFrontWhile (q : List ProbeSample) (max_points : Nat) : List ProbeSample :=
  match q with
  | [] => []
  | x :: xs =>
      if (x :: xs).length > max_points then popFrontWhile xs max_points
      else x :: xs

/-- `MetricsStore::push_sample` (store.rs lines 27-33): append at the back,
then evict from the front while over `max_points`. -/
def MetricsStore.push_sample (store : MetricsStore) (key : ProfileKey)
    (sample : ProbeSample) (max_points : Nat) : MetricsStore :=
  fun k =>
    if k = key then popFrontWhile (store key ++ [sample]) max_points else store k

/-- Apply a sequence of `push_sample` calls (common bound `max_points`). -/
def MetricsStore.applyPushes (store : MetricsStore)
    (pushes : List (ProfileKey × ProbeSample)) (max_points : Nat) : MetricsStore :=
  pushes.foldl (fun st p => st.push_sample p.1 p.2 max_points) store

/-- The subsequence of samples pushed under key `k`, in push order. -/
def pushedTo (k : ProfileKey) (pushes : List (ProfileKey × ProbeSample)) :
    List ProbeSample :=
  (pushes.filter (fun p => p.1 = k)).map (fun p => p.2)

theorem popFrontWhile_eq_drop (q : List ProbeSample) (m : Nat) :
    popFrontWhile q m = q.drop (q.length - m) := by
  induction q with
  | nil => simp [popFrontWhile]
  | cons x xs ih =>
    rw [popFrontWhile]
    by_cases h : (x :: xs).length > m
    · simp only [h, if_true]
      rw [ih]
      have hlen : (x :: xs).length = xs.length + 1 := by simp
      have hm : m ≤ xs.length := by omega
      have : (x :: xs).length - m = (xs.length - m) + 1 := by omega
      rw [this, List.drop_succ_cons]
    · simp only [h, if_false]
      have : (x :: xs).length - m = 0 := by omega
      rw [this, List.drop_zero]

theorem popFrontWhile_length_le (q : List ProbeSample) (m : Nat) :
    (popFrontWhile q m).length ≤ m := by
  rw [popFrontWhile_eq_drop, List.length_drop]
  omega

/-- The per-key queue evolution of a push sequence: each push appends and
then evicts from the front. -/
def queueFold (m : Nat) (q : List ProbeSample) (samples : List ProbeSample) :
    List ProbeSample :=
  samples.foldl (fun acc s => popFrontWhile (acc ++ [s]) m) q

theorem pushedTo_cons (k : ProfileKey) (p : ProfileKey × ProbeSample)
    (ps : List (ProfileKey × ProbeSample)) :
    pushedTo k (p :: ps)
      = if p.1 = k then p.2 :: pushedTo k ps else pushedTo k ps := by
  simp only [pushedTo, List.filter_cons]
  by_cases h : p.1 = k
  · simp [h]
  · simp [h]

theorem applyPushes_key (pushes : List (ProfileKey × ProbeSample))
    (st : MetricsStore) (m : Nat) (k : ProfileKey) :
    (st.applyPushes pushes m) k = queueFold m (st k) (pushedTo k pushes) := by
  induction pushes generalizing st with
  | nil => rfl
  | cons p ps ih =>
    show ((st.push_sample p.1 p.2 m).applyPushes ps m) k = _
    rw [ih, pushedTo_cons]
    by_cases h : p.1 = k
    · subst h
      simp only [if_pos rfl]
      have hval : (st.push_sample p.1 p.2 m) p.1
          = popFrontWhile (st p.1 ++ [p.2]) m := by
        simp [MetricsStore.push_sample]
      rw [hval]
      rfl
    · have hval : (st.push_sample p.1 p.2 m) k = st k := by
        have hne : ¬(k = p.1) := fun hk => h hk.symm
        simp [MetricsStore.push_sample, hne]
      rw [hval]
      simp [h]

theorem queueFold_eq_drop (samples : List ProbeSample) (m : Nat) :
    ∀ q : List ProbeSample, q.length ≤ m →
      queueFold m q samples
        = (q ++ samples).drop (q.length + samples.length - m) := by
  induction samples with
  | nil =>
    intro q hq
    simp only [queueFold, List.foldl_nil, List.append_nil, List.length_nil]
    have : q.length + 0 - m = 0 := by omega
    rw [this, List.drop_zero]
  | cons s rest ih =>
    intro q hq
    show queueFold m (popFrontWhile (q ++ [s]) m) rest = _
    have hq1len : (popFrontWhile (q ++ [s]) m).length ≤ m :=
      popFrontWhile_length_le _ _
    rw [ih _ hq1len]
    rw [popFrontWhile_eq_drop]
    have hAlen : (q ++ [s]).length = q.length + 1 := by simp
    have hd : (q ++ [s]).length - m ≤ (q ++ [s]).length := by omega
    rw [← List.drop_append_of_le_length hd, List.drop_drop]
    rw [List.append_assoc, List.singleton_append]
    congr 1
    simp only [List.length_drop, List.length_cons, hAlen]
    omega

/-- C1 (I2, P1, P2): for every key `k` and every sequence of
`push_sample(k, sample, m)` calls with a common bound `m`, starting from
the empty store, the queue for `k` holds at most `m` samples and equals
exactly the suffix of most-recently-pushed samples for `k`, in push order
(oldest evicted first, FIFO). -/
theorem push_sample_fifo_bound (pushes : List (ProfileKey × ProbeSample))
    (m : Nat) (k : ProfileKey) :
    ((MetricsStore.new.applyPushes pushes m) k).length ≤ m ∧
    (MetricsStore.new.applyPushes pushes m) k
      = (pushedTo k pushes).drop ((pushedTo k pushes).length - m) := by
  have hkey := applyPushes_key pushes MetricsStore.new m k
  have hnew : MetricsStore.new k = [] := rfl
  rw [hnew] at hkey
  have hfold := queueFold_eq_drop (pushedTo k pushes) m [] (by simp)
  simp only [List.nil_append, List.length_nil, Nat.zero_add] at hfold
  rw [hkey, hfold]
  constructor
  · rw [List.length_drop]
    omega
  · rfl

/-! ## MetricStats and the ProbeLossRate aggregation
(`src/features/metrics/mod.rs`, `src/features/metrics/aggregate/store.rs`) -/

/-- `MetricStats` (`src/features/metrics/mod.rs` lines 112-123).  The `f64`
statistics are modelled in `ℚ` (the ProbeLossRate entry is built from exact
integer casts and one division). -/
structure MetricStats where
  n : Nat
  last : Option ℚ
  min : Option ℚ
  max : Option ℚ
  mean : Option ℚ
  stddev : Option ℚ
  p50 : Option ℚ
  p90 : Option ℚ
  p99 : Option ℚ
  deriving DecidableEq, Repr

/-- `MetricStats::empty` (`mod.rs` lines 126-138). -/
def MetricStats.empty : MetricStats :=
  { n := 0, last := none, min := none, max := none, mean := none,
    stddev := none, p50 := none, p90 := none, p99 := none }

/-- `MetricStats::from_scalar` (`mod.rs` lines 140-152): every rate field is
the same scalar and `stddev` is forced to `0` when the scalar is present. -/
def MetricStats.from_scalar (value : Option ℚ) (n : Nat) : MetricStats :=
  { n := n, last := value, min := value, max := value, mean := value,
    stddev := value.map (fun _ => (0 : ℚ)), p50 := value, p90 := value,
    p99 := value }

/-- The sample-counting loop of `windowed_aggregate_with_clock`
(store.rs lines 62-81): for each stored sample with `ts ≥ cutoff`,
`total_samples` is incremented, and `error_samples` additionally on an
`Err` result.  (The `Ok` branch also extracts per-metric values, which do
not feed the ProbeLossRate entry.) -/
def loss_counters (samples : List ProbeSample) (cutoff : Nat) : Nat × Nat :=
  samples.foldl
    (fun acc s =>
      if s.ts ≥ cutoff then
        match s.result with
        | .ok => (acc.1 + 1, acc.2)
        | .err _ => (acc.1 + 1, acc.2 + 1)
      else acc)
    (0, 0)

/-- The `ProbeLossRate` entry that `windowed_aggregate_with_clock`
(store.rs lines 45-111) inserts into `by_metric` (lines 96-103): the rate
is `None` for an empty window and `error_samples / total_samples`
otherwise, stored through `MetricStats::from_scalar`.  The cutoff is
`now.checked_sub(window).unwrap_or(UNIX_EPOCH)`, i.e. truncated
subtraction on nanoseconds. -/
def windowed_aggregate_probe_loss_rate (store : MetricsStore)
    (key : ProfileKey) (window now : Nat) : MetricStats :=
  let cutoff := now - window
  let counts := loss_counters (store key) cutoff
  let total_samples := counts.1
  let error_samples := counts.2
  let rate : Option ℚ :=
    if total_samples = 0 then none
    else some ((error_samples : ℚ) / (total_samples : ℚ))
  MetricStats.from_scalar rate total_samples

/-- Spec-side description of the in-window samples: those with
`ts ≥ now − window`. -/
def inWindow (samples : List ProbeSample) (cutoff : Nat) : List ProbeSample :=
  samples.filter (fun s => cutoff ≤ s.ts)

/-- Spec-side description of the in-window error samples. -/
def inWindowErrors (samples : List ProbeSample) (cutoff : Nat) :
    List ProbeSample :=
  (inWindow samples cutoff).filter (fun s =>
    match s.result with
    | .ok => false
    | .err _ => true)

theorem loss_counters_go (samples : List ProbeSample) (cutoff : Nat) :
    ∀ a b : Nat,
      samples.foldl
        (fun acc s =>
          if s.ts ≥ cutoff then
            match s.result with
            | .ok => (acc.1 + 1, acc.2)
            | .err _ => (acc.1 + 1, acc.2 + 1)
          else acc)
        (a, b)
      = (a + (inWindow samples cutoff).length,
         b + (inWindowErrors samples cutoff).length) := by
  induction samples with
  | nil => intro a b; simp [inWindow, inWindowErrors]
  | cons s rest ih =>
    intro a b
    by_cases hts : cutoff ≤ s.ts
    · cases hres : s.result with
      | ok =>
        simp only [List.foldl_cons, ge_iff_le, hts, if_true, hres]
        rw [ih]
        have h1 : inWindow (s :: rest) cutoff = s :: inWindow rest cutoff := by
          simp [inWindow, hts]
        have h2 : inWindowErrors (s :: rest) cutoff
            = inWindowErrors rest cutoff := by
          simp [inWindowErrors, h1, List.filter_cons, hres]
        rw [h1, h2]
        simp only [List.length_cons]
        have ha : a + 1 + (inWindow rest cutoff).length
            = a + ((inWindow rest cutoff).length + 1) := by omega
        rw [ha]

      | err e =>
        simp only [List.foldl_cons, ge_iff_le, hts, if_true, hres]
        rw [ih]
        have h1 : inWindow (s :: rest) cutoff = s :: inWindow rest cutoff := by
          simp [inWindow, hts]
        have h2 : inWindowErrors (s :: rest) cutoff
            = s :: inWindowErrors rest cutoff := by
          simp [inWindowErrors, h1, List.filter_cons, hres]
        rw [h1, h2]
        simp only [List.length_cons]
        have ha : a + 1 + (inWindow rest cutoff).length
            = a + ((inWindow rest cutoff).length + 1) := by omega
        have hb : b + 1 + (inWindowErrors rest cutoff).length
            = b + ((inWindowErrors rest cutoff).length + 1) := by omega
        rw [ha, hb]
    · simp only [List.foldl_cons, ge_iff_le, hts, if_false]
      rw [ih]
      have h1 : inWindow (s :: rest) cutoff = inWindow rest cutoff := by
        simp [inWindow, hts]
      have h2 : inWindowErrors (s :: rest) cutoff
          = inWindowErrors rest cutoff := by
        simp [inWindowErrors, h1]
      rw [h1, h2]

theorem loss_counters_eq (samples : List ProbeSample) (cutoff : Nat) :
    loss_counters samples cutoff
      = ((inWindow samples cutoff).length,
         (inWindowErrors samples cutoff).length) := by
  have h := loss_counters_go samples cutoff 0 0
  simpa [loss_counters] using h

/-- C2 (P4): the `ProbeLossRate` entry of `windowed_aggregate` equals
`MetricStats` with `n` = the number of in-window samples, every one of
last/min/max/mean/p50/p90/p99 equal to `error_samples / total_samples`
and `stddev = 0` when the window holds at least one sample; and
`MetricStats::empty` (all rate fields `None`, `n = 0`) when the window is
empty. -/
theorem probe_loss_rate_correct (store : MetricsStore) (key : ProfileKey)
    (window now : Nat) :
    windowed_aggregate_probe_loss_rate store key window now
      = (if (inWindow (store key) (now - window)).length = 0 then
          MetricStats.empty
        else
          { n := (inWindow (store key) (now - window)).length,
            last := some (((inWindowErrors (store key) (now - window)).length : ℚ)
              / ((inWindow (store key) (now - window)).length : ℚ)),
            min := some (((inWindowErrors (store key) (now - window)).length : ℚ)
              / ((inWindow (store key) (now - window)).length : ℚ)),
            max := some (((inWindowErrors (store key) (now - window)).length : ℚ)
              / ((inWindow (store key) (now - window)).length : ℚ)),
            mean := some (((inWindowErrors (store key) (now - window)).length : ℚ)
              / ((inWindow (store key) (now - window)).length : ℚ)),
            stddev := some 0,
            p50 := some (((inWindowErrors (store key) (now - window)).length : ℚ)
              / ((inWindow (store key) (now - window)).length : ℚ)),
            p90 := some (((inWindowErrors (store key) (now - window)).length : ℚ)
              / ((inWindow (store key) (now - window)).length : ℚ)),
            p99 := some (((inWindowErrors (store key) (now - window)).length : ℚ)
              / ((inWindow (store key) (now - window)).length : ℚ)) }) := by
  dsimp only [windowed_aggregate_probe_loss_rate]
  rw [loss_counters_eq]
  dsimp only
  by_cases h : (inWindow (store key) (now - window)).length = 0
  · simp [h, MetricStats.from_scalar, MetricStats.empty]
  · simp [h, MetricStats.from_scalar]

/-! ## Phase timing derivation
(`src/features/probe/engine/client.rs` lines 226-235,
 `src/features/probe/engine/helpers.rs` lines 68-70) -/

/-- `saturating_sub` (helpers.rs lines 68-70):
`left.checked_sub(right).unwrap_or(Duration::from_millis(0))`.
On `Nat` nanoseconds this is truncated subtraction. -/
def saturating_sub (left right : Nat) : Nat := left - right

/-- The transport's cumulative timestamp readings after a transfer
(client.rs lines 226-230).  Each getter returns `Result`; `none` models a
reading that is unavailable. -/
structure CurlTimings where
  total_time : Option Nat
  namelookup_time : Option Nat
  connect_time : Option Nat
  appconnect_time : Option Nat
  starttransfer_time : Option Nat
  deriving DecidableEq, Repr

/-- `t_total = total_time().unwrap_or_default()` (client.rs line 226). -/
def CurlTimings.t_total (t : CurlTimings) : Nat := t.total_time.getD 0

/-- `t_dns_raw = namelookup_time().unwrap_or_default()` (line 227). -/
def CurlTimings.t_dns_raw (t : CurlTimings) : Nat := t.namelookup_time.getD 0

/-- `t_connect_raw = connect_time().unwrap_or(t_dns_raw)` (line 228):
a missing timestamp falls back to the previous available one. -/
def CurlTimings.t_connect_raw (t : CurlTimings) : Nat :=
  t.connect_time.getD t.t_dns_raw

/-- `t_tls_raw = appconnect_time().unwrap_or(t_connect_raw)` (line 229). -/
def CurlTimings.t_tls_raw (t : CurlTimings) : Nat :=
  t.appconnect_time.getD t.t_connect_raw

/-- `t_ttfb_raw = starttransfer_time().unwrap_or(t_tls_raw)` (line 230). -/
def CurlTimings.t_ttfb_raw (t : CurlTimings) : Nat :=
  t.starttransfer_time.getD t.t_tls_raw

/-- The derived phase durations of one probe attempt. -/
structure PhaseDurations where
  t_connect : Nat
  t_tls : Nat
  t_ttfb : Nat
  t_download : Nat
  deriving DecidableEq, Repr

/-- The phase derivation of `probe_once` (client.rs lines 232-235):
successive saturating differences of the cumulative timestamps. -/
def derive_phase_durations (t : CurlTimings) : PhaseDurations :=
  { t_connect := saturating_sub t.t_connect_raw t.t_dns_raw
    t_tls := saturating_sub t.t_tls_raw t.t_connect_raw
    t_ttfb := saturating_sub t.t_ttfb_raw t.t_tls_raw
    t_download := saturating_sub t.t_total t.t_ttfb_raw }

/-- Cumulative timings of a timed-out probe attempt: the transport
reports `Ok(0)` for every stage it never reached (the readings are
present, so the `unwrap_or` fallbacks never engage), namelookup has
consumed 5 units and the attempt was cut off at `t_total = 3000`. -/
def timeout_timings : CurlTimings :=
  { total_time := some 3000, namelookup_time := some 5,
    connect_time := some 0, appconnect_time := some 0,
    starttransfer_time := some 0 }

/-- C3 counterexample: the claimed bound
`t_dns + t_connect + t_tls + t_ttfb + t_download ≤ t_total + ε` is false
on the code for samples whose attempt did not complete every stage.  At
`timeout_timings` the derivation yields `t_download = t_total = 3000`
(because `starttransfer` reads 0, not the previous stage's time), so the
sum is `t_total + t_dns_raw = 3005`: the excess is the whole namelookup
duration, which is not bounded by any small `ε`. -/
theorem phase_sum_exceeds_total_counterexample :
    (derive_phase_durations timeout_timings).t_connect = 0
      ∧ (derive_phase_durations timeout_timings).t_tls = 0
      ∧ (derive_phase_durations timeout_timings).t_ttfb = 0
      ∧ (derive_phase_durations timeout_timings).t_download = 3000
      ∧ timeout_timings.t_dns_raw
          + (derive_phase_durations timeout_timings).t_connect
          + (derive_phase_durations timeout_timings).t_tls
          + (derive_phase_durations timeout_timings).t_ttfb
          + (derive_phase_durations timeout_timings).t_download
        = timeout_timings.t_total + 5 := by
  decide

/-- C3 amended (P3): each derived phase duration is, unconditionally, the
saturating difference of successive cumulative transport timestamps (a
missing reading falling back to the previous available one) and hence
non-negative; and whenever the cumulative readings are monotone with
`t_total` as upper bound — which holds for attempts that completed every
stage, but not for timed-out or non-TLS attempts, where unreached stages
read 0 — `t_dns` (the raw namelookup reading used when dns is enabled)
plus the four phase durations telescopes to exactly `t_total`, hence
`≤ t_total + ε`.  Without that condition the sum can exceed `t_total` by
up to the namelookup time (see the counterexample). -/
theorem phase_durations_correct (t : CurlTimings) :
    (derive_phase_durations t).t_connect
        = saturating_sub t.t_connect_raw t.t_dns_raw
      ∧ (derive_phase_durations t).t_tls
        = saturating_sub t.t_tls_raw t.t_connect_raw
      ∧ (derive_phase_durations t).t_ttfb
        = saturating_sub t.t_ttfb_raw t.t_tls_raw
      ∧ (derive_phase_durations t).t_download
        = saturating_sub t.t_total t.t_ttfb_raw
      ∧ 0 ≤ (derive_phase_durations t).t_connect
      ∧ 0 ≤ (derive_phase_durations t).t_tls
      ∧ 0 ≤ (derive_phase_durations t).t_ttfb
      ∧ 0 ≤ (derive_phase_durations t).t_download
      ∧ (t.t_dns_raw ≤ t.t_connect_raw →
          t.t_connect_raw ≤ t.t_tls_raw →
          t.t_tls_raw ≤ t.t_ttfb_raw →
          t.t_ttfb_raw ≤ t.t_total →
          t.t_dns_raw + (derive_phase_durations t).t_connect
              + (derive_phase_durations t).t_tls
              + (derive_phase_durations t).t_ttfb
              + (derive_phase_durations t).t_download
            = t.t_total) := by
  refine ⟨rfl, rfl, rfl, rfl, Nat.zero_le _, Nat.zero_le _, Nat.zero_le _,
    Nat.zero_le _, ?_⟩
  intro h1 h2 h3 h4
  simp only [derive_phase_durations, saturating_sub]
  omega

/-- Concrete cumulative timings for the phase-derivation witness:
in-order readings 5 ≤ 12 ≤ 12 ≤ 31 ≤ 40, with the `appconnect` reading
missing so the fallback to `connect_time` is exercised. -/
def witness_timings : CurlTimings :=
  { total_time := some 40, namelookup_time := some 5,
    connect_time := some 12, appconnect_time := none,
    starttransfer_time := some 31 }

/-- Witness for `phase_durations_correct` at `witness_timings`,
discharging the monotone-readings condition of the telescoping sum. -/
theorem phase_durations_correct_witness :
    witness_timings.t_dns_raw
        + (derive_phase_durations witness_timings).t_connect
        + (derive_phase_durations witness_timings).t_tls
        + (derive_phase_durations witness_timings).t_ttfb
        + (derive_phase_durations witness_timings).t_download
      = witness_timings.t_total :=
  (phase_durations_correct witness_timings).2.2.2.2.2.2.2.2
    (by decide) (by decide) (by decide) (by decide)

/-! ## Error classification (`src/features/probe/engine/helpers.rs`) -/

/-- Rust `str::to_ascii_lowercase` (ASCII-only lowering; `Char.toLower`
lowers exactly the ASCII uppercase range). -/
def to_ascii_lowercase (s : String) : String := ⟨s.toList.map Char.toLower⟩

/-- Substring search over character lists: the needle occurs as a prefix
of some suffix of the haystack. -/
def contains_sub (hay needle : List Char) : Bool :=
  match hay with
  | [] => needle.isEmpty
  | _ :: rest => needle.isPrefixOf hay || contains_sub rest needle

/-- Rust `str::contains(needle)`: substring containment. -/
def string_contains (hay needle : String) : Bool :=
  contains_sub hay.toList needle.toList

/-- `is_tls_version_error` (helpers.rs lines 51-56).  Rust operator
precedence makes the final clause `"tls" && ("version" || "unsupported")`;
Lean `&&`/`||` share that precedence. -/
def is_tls_version_error (message : String) : Bool :=
  string_contains message "ssl_min_max_version"
    || string_contains message "unsupported protocol"
    || string_contains message "tls"
      && (string_contains message "version" || string_contains message "unsupported")

/-- `is_dns_timeout_message` (helpers.rs lines 58-60). -/
def is_dns_timeout_message (message : String) : Bool :=
  string_contains (to_ascii_lowercase message) "resolving timed out"

/-- The transport error as the classifier observes it: libcurl's error-class
predicates plus the rendered message (`curl::Error`). -/
structure CurlError where
  is_couldnt_resolve_host : Bool
  is_couldnt_resolve_proxy : Bool
  is_operation_timedout : Bool
  is_couldnt_connect : Bool
  is_ssl_connect_error : Bool
  is_ssl_cacert : Bool
  is_ssl_certproblem : Bool
  is_ssl_cipher : Bool
  is_http_returned_error : Bool
  is_read_error : Bool
  is_write_error : Bool
  is_aborted_by_callback : Bool
  message : String
  deriving DecidableEq, Repr

/-- `map_curl_error` (helpers.rs lines 18-49): the if/else-if cascade. -/
def map_curl_error (err : CurlError) : ProbeError :=
  let message := err.message
  let message_lower := to_ascii_lowercase message
  let kind :=
    if err.is_couldnt_resolve_host || err.is_couldnt_resolve_proxy then
      ProbeErrorKind.dnsOther
    else if err.is_operation_timedout then ProbeErrorKind.httpTimeout
    else if err.is_couldnt_connect then ProbeErrorKind.connectOther
    else if err.is_ssl_connect_error || err.is_ssl_cacert
        || err.is_ssl_certproblem || err.is_ssl_cipher then
      if is_tls_version_error message_lower then
        ProbeErrorKind.tlsVersionMismatch
      else ProbeErrorKind.tlsHandshakeFailed
    else if err.is_http_returned_error then ProbeErrorKind.httpStatusError
    else if err.is_read_error then ProbeErrorKind.readTimeout
    else if is_tls_version_error message_lower then
      ProbeErrorKind.tlsVersionMismatch
    else ProbeErrorKind.ioError
  { kind := kind, message := message }

/-- The spec's classification priority list (spec §4.3), written from the
spec's words as (condition, kind) pairs in priority order; the classifier
must return the first matching kind, defaulting to `IoError`. -/
def classification_priority (e : CurlError) : List (Bool × ProbeErrorKind) :=
  let message_lower := to_ascii_lowercase e.message
  [ (e.is_couldnt_resolve_host || e.is_couldnt_resolve_proxy,
      ProbeErrorKind.dnsOther),
    (e.is_operation_timedout, ProbeErrorKind.httpTimeout),
    (e.is_couldnt_connect, ProbeErrorKind.connectOther),
    ((e.is_ssl_connect_error || e.is_ssl_cacert
        || e.is_ssl_certproblem || e.is_ssl_cipher)
      && is_tls_version_error message_lower,
      ProbeErrorKind.tlsVersionMismatch),
    (e.is_ssl_connect_error || e.is_ssl_cacert
        || e.is_ssl_certproblem || e.is_ssl_cipher,
      ProbeErrorKind.tlsHandshakeFailed),
    (e.is_http_returned_error, ProbeErrorKind.httpStatusError),
    (e.is_read_error, ProbeErrorKind.readTimeout),
    (is_tls_version_error message_lower, ProbeErrorKind.tlsVersionMismatch) ]

/-- First-match semantics over the spec's priority list. -/
def classify_spec (e : CurlError) : ProbeErrorKind :=
  match (classification_priority e).find? (fun c => c.1) with
  | some c => c.2
  | none => ProbeErrorKind.ioError

/-- C5: for every transport error, `map_curl_error` returns exactly the
first matching kind of the spec's priority list (with the TLS-version
pattern `ssl_min_max_version` / `unsupported protocol` / `tls`
co-occurring with `version` or `unsupported`, matched against the
ASCII-lowercased message), and preserves the message. -/
theorem map_curl_error_first_match (e : CurlError) :
    map_curl_error e = { kind := classify_spec e, message := e.message } := by
  cases h1 : (e.is_couldnt_resolve_host || e.is_couldnt_resolve_proxy) <;>
  cases h2 : e.is_operation_timedout <;>
  cases h3 : e.is_couldnt_connect <;>
  cases h4 : (e.is_ssl_connect_error || e.is_ssl_cacert
      || e.is_ssl_certproblem || e.is_ssl_cipher) <;>
  cases h5 : e.is_http_returned_error <;>
  cases h6 : e.is_read_error <;>
  cases h7 : is_tls_version_error (to_ascii_lowercase e.message) <;>
  simp [map_curl_error, classify_spec, classification_priority, List.find?,
    h1, h2, h3, h4, h5, h6, h7]

/-! ## ProbeClient::probe and the DNS-timeout retry
(`src/features/probe/engine/client.rs` lines 79-111, 195-224) -/

/-- `curl::easy::IpResolve` (the modes the client uses). -/
inductive IpResolve
  | any
  | v4
  deriving DecidableEq, Repr

/-- What one underlying transfer attempt yields, as `probe_once` observes
it: the assembled sample (lines 256-278), the `perform()` error if any,
and the collector's `limit_reached` flag read right after `perform()`
(line 197). -/
structure AttemptOutcome where
  sample : ProbeSample
  perform_error : Option CurlError
  was_aborted_by_limit : Bool

/-- The `dns_timeout` flag computed by `probe_once`
(client.rs lines 198-224): set when `perform()` failed with
`is_operation_timedout` and the message matches the "resolving timed out"
signature, and cleared again when the failure was the deliberate
body-limit abort. -/
def probe_once_dns_timeout (outcome : AttemptOutcome) : Bool :=
  let dns_timeout :=
    match outcome.perform_error with
    | some e => e.is_operation_timedout && is_dns_timeout_message e.message
    | none => false
  let aborted_by_limit :=
    match outcome.perform_error with
    | some e =>
        outcome.was_aborted_by_limit
          && (e.is_write_error || e.is_aborted_by_callback)
    | none => false
  dns_timeout && !aborted_by_limit

/-- `probe_once` as `probe` observes it (client.rs line 280): the sample
and the dns-timeout flag.  The transfer itself is the injected
`transport`. -/
def probe_once (transport : IpResolve → AttemptOutcome)
    (ip_resolve : IpResolve) : ProbeSample × Bool :=
  (transport ip_resolve |>.sample, probe_once_dns_timeout (transport ip_resolve))

/-- Placeholder for the `expect("probe attempts should return a sample")`
branch of `probe`; unreachable from `ProbeClient.probe`. -/
def fallback_sample : ProbeSample :=
  { ts := 0, target_id := 0, profile_id := 0, result := ProbeResult.ok }

/-- The `for (index, ip_mode) in ip_modes.iter().enumerate()` loop of
`probe` (client.rs lines 100-110), instrumented with the list of modes
actually attempted; `index + 1 < ip_modes.len()` is `rest ≠ []`. -/
def probe_go (attempt : IpResolve → ProbeSample × Bool) :
    Option ProbeSample → List IpResolve → ProbeSample × List IpResolve
  | last, [] => (last.getD fallback_sample, [])
  | _, mode :: rest =>
      let r := attempt mode
      if r.2 && !rest.isEmpty then
        let next := probe_go attempt (some r.1) rest
        (next.1, mode :: next.2)
      else (r.1, [mode])

/-- `ProbeClient::probe` (client.rs lines 79-111).  `host_is_ip` abstracts
`url.host_str().parse::<IpAddr>().is_some()`.  Returns the sample the
call yields together with the trace of attempted resolve modes. -/
def ProbeClient.probe (dns_enabled host_is_ip : Bool)
    (transport : IpResolve → AttemptOutcome) : ProbeSample × List IpResolve :=
  let retry_on_dns_timeout := dns_enabled && !host_is_ip
  let ip_modes : List IpResolve :=
    if retry_on_dns_timeout then [IpResolve.any, IpResolve.v4]
    else [IpResolve.any]
  probe_go (probe_once transport) none ip_modes

/-- C4 (P7): a probe call issues at most two attempts and returns exactly
one sample; when the first attempt raises the dns-timeout flag (operation
timed out with a "resolving timed out" message not caused by the body
cap), dns is enabled and the host is not an IP literal, exactly one
IPv4-only retry runs and only its sample is returned; in every other case
the first (IpResolve::Any) attempt's sample is returned after a single
attempt. -/
theorem probe_dns_timeout_retry (dns_enabled host_is_ip : Bool)
    (transport : IpResolve → AttemptOutcome) :
    (ProbeClient.probe dns_enabled host_is_ip transport).2.length ≤ 2 ∧
    (if dns_enabled && !host_is_ip
        && (probe_once transport IpResolve.any).2 then
      (ProbeClient.probe dns_enabled host_is_ip transport).1
          = (probe_once transport IpResolve.v4).1
        ∧ (ProbeClient.probe dns_enabled host_is_ip transport).2
          = [IpResolve.any, IpResolve.v4]
    else
      (ProbeClient.probe dns_enabled host_is_ip transport).1
          = (probe_once transport IpResolve.any).1
        ∧ (ProbeClient.probe dns_enabled host_is_ip transport).2
          = [IpResolve.any]) := by
  cases hd : dns_enabled <;> cases hip : host_is_ip <;>
    cases hflag : (probe_once transport IpResolve.any).2 <;>
    simp [ProbeClient.probe, probe_go, hflag]

/-! ## Profile worker loop (`src/runtime.rs` lines 35-89) -/

/-- `ControlMessage` (runtime.rs lines 9-15); the carried configs are
abstract identifiers. -/
inductive ControlMessage
  | updateTarget (cfg : Nat)
  | updateProfile (cfg : Nat)
  | pause (flag : Bool)
  | stop
  deriving DecidableEq, Repr

/-- The mutable state of `run_worker`: the `paused` flag, whether the
loop has been left (`break` / `return`), the current config snapshots and
the resolved-ip cache. -/
structure WorkerState where
  paused : Bool
  terminated : Bool
  target : Nat
  profile : Nat
  resolved_ip : Option Nat
  deriving DecidableEq, Repr

/-- What one wait on the control channel yields: a message, observing the
channel disconnected, or (when Running) the `recv_timeout` timeout. -/
inductive WorkerEvent
  | received (m : ControlMessage)
  | disconnected
  | timeout
  deriving DecidableEq, Repr

/-- The observable outcome of one loop iteration: the successor state,
how many probes were performed, and the samples passed to
`sample_tx.send`. -/
structure WorkerStep where
  state : WorkerState
  probes : Nat
  sent : List ProbeSample
  deriving DecidableEq, Repr

/-- One iteration of the `run_worker` loop (runtime.rs lines 63-88).
`probe_result` is the sample `client.probe` returns on the timeout path;
`send_ok` tells whether `sample_tx.send` succeeds.  The code writes
`let _ = sample_tx.send(sample);` (line 85), so `send_ok` does not
influence the successor state: a failed send neither terminates the
worker nor is observed at all.  While paused the worker blocks in a plain
`recv()` (lines 64-72), so no timeout event arises there; it is modelled
as a stutter step. -/
def run_worker_step (st : WorkerState) (ev : WorkerEvent)
    (probe_result : ProbeSample) (_send_ok : Bool) : WorkerStep :=
  if st.terminated then { state := st, probes := 0, sent := [] }
  else if st.paused then
    match ev with
    | .received (.pause flag) =>
        { state := { st with paused := flag }, probes := 0, sent := [] }
    | .received (.updateTarget cfg) =>
        { state := { st with target := cfg }, probes := 0, sent := [] }
    | .received (.updateProfile cfg) =>
        { state := { st with profile := cfg }, probes := 0, sent := [] }
    | .received .stop =>
        { state := { st with terminated := true }, probes := 0, sent := [] }
    | .disconnected =>
        { state := { st with terminated := true }, probes := 0, sent := [] }
    | .timeout => { state := st, probes := 0, sent := [] }
  else
    match ev with
    | .received (.pause flag) =>
        { state := { st with paused := flag }, probes := 0, sent := [] }
    | .received (.updateTarget cfg) =>
        { state := { st with target := cfg }, probes := 0, sent := [] }
    | .received (.updateProfile cfg) =>
        { state := { st with profile := cfg }, probes := 0, sent := [] }
    | .received .stop =>
        { state := { st with terminated := true }, probes := 0, sent := [] }
    | .disconnected =>
        { state := { st with terminated := true }, probes := 0, sent := [] }
    | .timeout =>
        let resolved :=
          match probe_result.remote with
          | some r => some r.ip
          | none => st.resolved_ip
        { state := { st with resolved_ip := resolved },
          probes := 1,
          sent := [probe_result] }

/-- An initial Running worker state. -/
def worker_init : WorkerState :=
  { paused := false, terminated := false, target := 0, profile := 0,
    resolved_ip := none }

/-- C6 counterexample: the claim "a failure of the send terminates the
worker (after a failed send the worker performs no further probes)" is
false on the code.  From a Running state, a timeout step whose send fails
leaves the worker Running, and the very next timeout step performs
another probe. -/
theorem run_worker_send_failure_counterexample :
    (run_worker_step worker_init WorkerEvent.timeout fallback_sample
        false).state.terminated = false
      ∧ (run_worker_step
          (run_worker_step worker_init WorkerEvent.timeout fallback_sample
            false).state
          WorkerEvent.timeout fallback_sample false).probes = 1 := by
  decide

/-- C6 amended: when Running, a control-channel timeout performs exactly
one probe and passes exactly that sample to `send`; the send result is
discarded (`let _ = sample_tx.send(sample)`), so the worker stays Running
whether or not the send succeeds, and it terminates exactly on `Stop` or
on control-channel disconnection. -/
theorem run_worker_timeout_probes_once (st : WorkerState)
    (sample : ProbeSample) (send_ok : Bool)
    (hterm : st.terminated = false) (hpause : st.paused = false) :
    (run_worker_step st WorkerEvent.timeout sample send_ok).probes = 1
      ∧ (run_worker_step st WorkerEvent.timeout sample send_ok).sent
        = [sample]
      ∧ (run_worker_step st WorkerEvent.timeout sample
          send_ok).state.terminated = false
      ∧ (run_worker_step st WorkerEvent.timeout sample
          send_ok).state.paused = false
      ∧ (run_worker_step st (WorkerEvent.received ControlMessage.stop)
          sample send_ok).state.terminated = true
      ∧ (run_worker_step st WorkerEvent.disconnected sample
          send_ok).state.terminated = true := by
  simp [run_worker_step, hterm, hpause]

/-- Witness for `run_worker_timeout_probes_once` at the initial Running
state with a failing send. -/
theorem run_worker_timeout_probes_once_witness :
    worker_init.terminated = false ∧ worker_init.paused = false
      ∧ ((run_worker_step worker_init WorkerEvent.timeout fallback_sample
            false).probes = 1
          ∧ (run_worker_step worker_init WorkerEvent.timeout fallback_sample
              false).sent = [fallback_sample]
          ∧ (run_worker_step worker_init WorkerEvent.timeout fallback_sample
              false).state.terminated = false
          ∧ (run_worker_step worker_init WorkerEvent.timeout fallback_sample
              false).state.paused = false
          ∧ (run_worker_step worker_init
              (WorkerEvent.received ControlMessage.stop) fallback_sample
              false).state.terminated = true
          ∧ (run_worker_step worker_init WorkerEvent.disconnected
              fallback_sample false).state.terminated = true) :=
  ⟨rfl, rfl, run_worker_timeout_probes_once worker_init fallback_sample
    false rfl rfl⟩

/-! ## CLI settings (`src/settings/mod.rs`, `src/main.rs`) -/

/-- `EbpfMode` (`src/config.rs` lines 227-233). -/
inductive EbpfMode
  | off
  | minimal
  | full
  deriving DecidableEq, Repr

/-- `EbpfMode::parse_cli` (`src/config.rs` lines 236-243); unknown values
collapse to `Off`.  `src/main.rs` `parse_ebpf_mode` (lines 49-55) is the
same match. -/
def EbpfMode.parse_cli (value : String) : EbpfMode :=
  if value = "minimal" then EbpfMode.minimal
  else if value = "full" then EbpfMode.full
  else EbpfMode.off

/-- `CliArgs` (settings/mod.rs lines 8-23; `main.rs` `Args` is identical).
`refresh_hz` is a `u16`. -/
structure CliArgs where
  target : List String
  refresh_hz : Nat
  ebpf : String
  deriving DecidableEq, Repr

/-- `AppSettings` (`src/data_model/settings.rs`). -/
structure AppSettings where
  targets : List String
  refresh_hz : Nat
  ebpf_mode : EbpfMode
  deriving DecidableEq, Repr

/-- `SettingsError` (settings/mod.rs lines 25-29). -/
inductive SettingsError
  | invalidRefreshHz (value : Nat)
  deriving DecidableEq, Repr

/-- `DEFAULT_TARGET` (settings/mod.rs line 6). -/
def DEFAULT_TARGET : String := "https://google.com"

/-- `settings::from_args` (settings/mod.rs lines 36-54): rejects
`refresh_hz == 0` with `InvalidRefreshHz`, fills in the default target,
parses the ebpf mode. -/
def from_args (args : CliArgs) : Except SettingsError AppSettings :=
  if args.refresh_hz = 0 then
    Except.error (SettingsError.invalidRefreshHz args.refresh_hz)
  else
    Except.ok
      { targets := if args.target.isEmpty then [DEFAULT_TARGET] else args.target
        refresh_hz := args.refresh_hz
        ebpf_mode := EbpfMode.parse_cli args.ebpf }

/-- The pre-UI state `main` builds before calling `run_ui`. -/
structure MainStartup where
  ui_refresh_hz : Nat
  ebpf_mode : EbpfMode
  workers_spawned : Nat
  exited_before_spawn : Bool
  deriving DecidableEq, Repr

/-- `main` up to the `run_ui` call (`src/main.rs` lines 23-45): it reads
`args.refresh_hz` straight into the global config with **no validation**
(it does not call `settings::from_args` / `load_from_cli`), defaults the
target list, and calls `add_target` — which spawns one worker per profile
(state.rs lines 149-181) — for every target that parses.  `url_parses`
abstracts `parse_target_url`, `profiles_per_target` abstracts
`default_profiles_for_capabilities(detect_tls13_support()).len()`.
There is no early-exit path before workers are spawned, hence the
constant `exited_before_spawn := false`. -/
def main_startup (args : CliArgs) (url_parses : String → Bool)
    (profiles_per_target : Nat) : MainStartup :=
  let targets :=
    if args.target.isEmpty then ["https://google.com"] else args.target
  { ui_refresh_hz := args.refresh_hz
    ebpf_mode := EbpfMode.parse_cli args.ebpf
    workers_spawned := (targets.filter url_parses).length * profiles_per_target
    exited_before_spawn := false }

/-- C7: the claim holds of the dead `settings::from_args` (which rejects
`--refresh-hz 0`, as its unit tests assert), but the actual entry point
`main` never calls it: with `--refresh-hz 0` the binary installs `0` as
the UI refresh rate and spawns the default target's workers without any
rejection — the code contradicts the validation module it ships. -/
theorem refresh_hz_zero_not_rejected_by_main :
    from_args { target := [], refresh_hz := 0, ebpf := "off" }
        = Except.error (SettingsError.invalidRefreshHz 0)
      ∧ (main_startup { target := [], refresh_hz := 0, ebpf := "off" }
          (fun _ => true) 2).exited_before_spawn = false
      ∧ (main_startup { target := [], refresh_hz := 0, ebpf := "off" }
          (fun _ => true) 2).workers_spawned = 2
      ∧ (main_startup { target := [], refresh_hz := 0, ebpf := "off" }
          (fun _ => true) 2).ui_refresh_hz = 0
      ∧ from_args { target := [], refresh_hz := 10, ebpf := "off" }
          = Except.ok
              { targets := [DEFAULT_TARGET], refresh_hz := 10,
                ebpf_mode := EbpfMode.off }
      ∧ (main_startup { target := [], refresh_hz := 10, ebpf := "off" }
          (fun _ => true) 2).ui_refresh_hz = 10 :=
  ⟨rfl, rfl, by decide, rfl, rfl, rfl⟩

/-! ## SecretString (`src/config.rs` lines 290-314) -/

/-- `SecretString`: a wrapped string whose only revealing accessor is
`expose`. -/
structure SecretString where
  value : String
  deriving DecidableEq, Repr

/-- `SecretString::expose` (config.rs lines 299-301). -/
def SecretString.expose (s : SecretString) : String := s.value

/-- The `Debug` impl (config.rs lines 304-308): writes the constant
`"SecretString([REDACTED])"`, never the wrapped value. -/
def SecretString.debug_fmt (_ : SecretString) : String :=
  "SecretString([REDACTED])"

/-- The `Display` impl (config.rs lines 310-314): writes the constant
`"[REDACTED]"`, never the wrapped value. -/
def SecretString.display_fmt (_ : SecretString) : String := "[REDACTED]"

/-- C8 (P8): every display projection of a `SecretString` is exactly the
`"[REDACTED]"` sentinel, every debug projection is the constant
`"SecretString([REDACTED])"` (which carries the sentinel); both are the
same constant for any two wrapped values, so neither output depends on —
and hence neither can leak — the wrapped value (the claim's equivalent
reading of "does not contain the wrapped value"). -/
theorem secret_string_redacted (a b : SecretString) :
    a.display_fmt = "[REDACTED]"
      ∧ a.debug_fmt = "SecretString([REDACTED])"
      ∧ a.display_fmt = b.display_fmt
      ∧ a.debug_fmt = b.debug_fmt
      ∧ string_contains a.debug_fmt "[REDACTED]" = true
      ∧ (string_contains a.display_fmt a.value
          = string_contains "[REDACTED]" a.value)
      ∧ (string_contains a.debug_fmt a.value
          = string_contains "SecretString([REDACTED])" a.value) :=
  ⟨rfl, rfl, rfl, rfl, rfl, rfl, rfl⟩

/-! ## BodyCollector (`src/features/probe/engine/client.rs` lines 16-65) -/

/-- `u64::MAX`. -/
def U64_MAX : Nat := 2 ^ 64 - 1

/-- `u64::saturating_add`. -/
def u64_saturating_add (a b : Nat) : Nat := Nat.min (a + b) U64_MAX

/-- `BodyCollector` (client.rs lines 16-21). -/
structure BodyCollector where
  bytes : Nat
  limit : Nat
  limit_reached : Bool
  deriving DecidableEq, Repr

/-- `BodyCollector::reset` (client.rs lines 24-28). -/
def BodyCollector.reset (limit : Nat) : BodyCollector :=
  { bytes := 0, limit := limit, limit_reached := false }

/-- `Handler::write` for `BodyCollector` (client.rs lines 32-47): counts at
most `limit - bytes` of the incoming data (everything when `limit == 0`),
sets `limit_reached` once the count reaches a non-zero limit, and always
returns `Ok(data.len())` — the transport never observes a short write and
`write` never signals an abort. -/
def BodyCollector.write (c : BodyCollector) (data_len : Nat) :
    BodyCollector × Nat :=
  let len := data_len
  let take :=
    if c.limit = 0 then len
    else Nat.min len (c.limit - c.bytes)
  let bytes := u64_saturating_add c.bytes take
  let limit_reached :=
    if 0 < c.limit ∧ c.limit ≤ bytes then true else c.limit_reached
  ({ c with bytes := bytes, limit_reached := limit_reached }, data_len)

/-- `Handler::progress` for `BodyCollector` (client.rs lines 49-64):
returning `false` instructs the transport to abort; that happens only once
a non-zero limit is reached (either already recorded or observed via
`dlnow`). -/
def BodyCollector.progress (c : BodyCollector) (dlnow : ℚ) :
    BodyCollector × Bool :=
  if c.limit = 0 then (c, true)
  else if c.limit_reached then (c, false)
  else if (c.limit : ℚ) ≤ dlnow then ({ c with limit_reached := true }, false)
  else (c, true)

/-- A sequence of `write` calls, threading the collector state. -/
def write_seq (c : BodyCollector) (ds : List Nat) : BodyCollector :=
  ds.foldl (fun acc d => (acc.write d).1) c

theorem body_collector_write_step (L pre d : Nat) (hL : 0 < L)
    (hLmax : L ≤ U64_MAX) :
    BodyCollector.write
        { bytes := Nat.min pre L, limit := L,
          limit_reached := decide (L ≤ pre) } d
      = ({ bytes := Nat.min (pre + d) L, limit := L,
            limit_reached := decide (L ≤ pre + d) }, d) := by
  have hne : ¬(L = 0) := by omega
  simp only [BodyCollector.write, u64_saturating_add, hne, if_false]
  have hbytes : Nat.min (Nat.min pre L + Nat.min d (L - Nat.min pre L)) U64_MAX
      = Nat.min (pre + d) L := by
    simp only [Nat.min_def]
    split_ifs <;> omega
  rw [hbytes]
  by_cases hflag : L ≤ pre + d
  · have hcond : 0 < L ∧ L ≤ Nat.min (pre + d) L := by
      refine ⟨hL, ?_⟩
      simp only [Nat.min_def]
      split_ifs <;> omega
    simp [hcond, hflag]
  · have hcond : ¬(0 < L ∧ L ≤ Nat.min (pre + d) L) := by
      simp only [Nat.min_def]
      split_ifs <;> omega
    have hpre : ¬(L ≤ pre) := by omega
    simp [hcond, hflag, hpre]

theorem write_seq_inv (L : Nat) (hL : 0 < L) (hLmax : L ≤ U64_MAX) :
    ∀ (ds : List Nat) (pre : Nat),
      write_seq
          { bytes := Nat.min pre L, limit := L,
            limit_reached := decide (L ≤ pre) } ds
        = { bytes := Nat.min (pre + ds.sum) L, limit := L,
            limit_reached := decide (L ≤ pre + ds.sum) } := by
  intro ds
  induction ds with
  | nil => intro pre; simp [write_seq]
  | cons d rest ih =>
    intro pre
    show write_seq (BodyCollector.write
        { bytes := Nat.min pre L, limit := L,
          limit_reached := decide (L ≤ pre) } d).1 rest = _
    rw [body_collector_write_step L pre d hL hLmax]
    rw [ih (pre + d)]
    have hsum : pre + d + rest.sum = pre + (d :: rest).sum := by
      simp [List.sum_cons]
      omega
    rw [hsum]

/-- C9: after `reset(L)` with `0 < L` (a `u64` limit), any sequence of
`write` calls accumulates `min(total, L)` bytes — never more than `L` —
and `limit_reached` is set exactly when the accumulated input reaches
`L`; every `write` returns the full input length (no short write, no
abort from `write`); once set, `limit_reached` survives every further
`write`; and `progress` returns `false` (the only abort signal) only when
a non-zero limit has been reached or `dlnow` reaches it. -/
theorem body_collector_limit (ds : List Nat) (L : Nat) (hL : 0 < L)
    (hLmax : L ≤ U64_MAX) :
    (write_seq (BodyCollector.reset L) ds).bytes = Nat.min ds.sum L
      ∧ (write_seq (BodyCollector.reset L) ds).bytes ≤ L
      ∧ (write_seq (BodyCollector.reset L) ds).limit_reached
        = decide (L ≤ ds.sum)
      ∧ (∀ (c : BodyCollector) (d : Nat), (c.write d).2 = d)
      ∧ (∀ (c : BodyCollector) (d : Nat), c.limit_reached = true →
          ((c.write d).1).limit_reached = true)
      ∧ (∀ (c : BodyCollector) (x : ℚ), (c.progress x).2 = false →
          c.limit ≠ 0 ∧ (c.limit_reached = true ∨ (c.limit : ℚ) ≤ x)) := by
  have hreset : BodyCollector.reset L
      = { bytes := Nat.min 0 L, limit := L,
          limit_reached := decide (L ≤ 0) } := by
    have h0 : decide (L ≤ 0) = false := decide_eq_false (by omega)
    simp only [BodyCollector.reset, h0, Nat.zero_min]
  have hmain := write_seq_inv L hL hLmax ds 0
  rw [← hreset] at hmain
  refine ⟨?_, ?_, ?_, ?_, ?_, ?_⟩
  · rw [hmain]
    show Nat.min (0 + ds.sum) L = Nat.min ds.sum L
    rw [Nat.zero_add]
  · rw [hmain]
    show Nat.min (0 + ds.sum) L ≤ L
    simp only [Nat.min_def]
    split_ifs <;> omega
  · rw [hmain]
    show decide (L ≤ 0 + ds.sum) = decide (L ≤ ds.sum)
    rw [Nat.zero_add]
  · intro c d; rfl
  · intro c d hflag
    simp only [BodyCollector.write]
    by_cases hcond : 0 < c.limit ∧ c.limit ≤ u64_saturating_add c.bytes
        (if c.limit = 0 then d else Nat.min d (c.limit - c.bytes))
    · simp [hcond]
    · simp [hcond, hflag]
  · intro c x hfalse
    by_cases h0 : c.limit = 0
    · simp [BodyCollector.progress, h0] at hfalse
    · by_cases hlr : c.limit_reached = true
      · exact ⟨h0, Or.inl hlr⟩
      · by_cases hnow : (c.limit : ℚ) ≤ x
        · exact ⟨h0, Or.inr hnow⟩
        · have hlr2 : c.limit_reached = false := by
            cases hb : c.limit_reached
            · rfl
            · exact absurd hb hlr
          simp [BodyCollector.progress, h0, hlr2, hnow] at hfalse

/-- A collector whose limit has already been reached, for the witness. -/
def witness_collector : BodyCollector :=
  { bytes := 5, limit := 5, limit_reached := true }

/-- Witness for `body_collector_limit`: limit 5, writes of 3 and 4 bytes;
the count caps at 5 and the flag is set; `write` reports the full 7-byte
input; a reached collector stays reached and its `progress` aborts. -/
theorem body_collector_limit_witness :
    (0 : Nat) < 5 ∧ (5 : Nat) ≤ U64_MAX
      ∧ (write_seq (BodyCollector.reset 5) [3, 4]).bytes
        = Nat.min ([3, 4] : List Nat).sum 5
      ∧ (write_seq (BodyCollector.reset 5) [3, 4]).bytes ≤ 5
      ∧ (write_seq (BodyCollector.reset 5) [3, 4]).limit_reached
        = decide (5 ≤ ([3, 4] : List Nat).sum)
      ∧ (witness_collector.write 7).2 = 7
      ∧ ((witness_collector.write 7).1).limit_reached = true
      ∧ (witness_collector.limit ≠ 0
          ∧ (witness_collector.limit_reached = true
            ∨ (witness_collector.limit : ℚ) ≤ 9)) :=
  have h := body_collector_limit [3, 4] 5 (by decide) (by decide)
  ⟨by decide, by decide, h.1, h.2.1, h.2.2.1,
    h.2.2.2.1 witness_collector 7,
    h.2.2.2.2.1 witness_collector 7 rfl,
    h.2.2.2.2.2 witness_collector 9 rfl⟩

/-! ## AppState::apply_sample (`src/features/app/state.rs` lines 209-237) -/

/-- `ProfileRuntime` (state.rs lines 118-123): the per-profile fields
`apply_sample` touches. -/
structure ProfileRuntime where
  id : Nat
  last_sample : Option ProbeSample
  last_error : Option ProbeErrorKind
  deriving DecidableEq, Repr

/-- `TargetRuntime` (state.rs lines 106-116): the per-target fields
`apply_sample` touches (`max_points_per_window` stands for
`config.sampling.max_points_per_window`, `id` for `config.id`). -/
structure TargetRuntime where
  id : Nat
  max_points_per_window : Nat
  last_ip : Option Nat
  profiles : List ProfileRuntime
  deriving DecidableEq, Repr

/-- `AppState` restricted to the state `apply_sample` reads and writes. -/
structure AppState where
  metrics : MetricsStore
  targets : List TargetRuntime

/-- `if let Some(remote) = sample.remote { target.last_ip = Some(remote.ip()) }`
(state.rs lines 220-222). -/
def last_ip_after (s : ProbeSample) (old : Option Nat) : Option Nat :=
  match s.remote with
  | some r => some r.ip
  | none => old

/-- The profile update of `apply_sample` (state.rs lines 228-232):
`last_sample` becomes the sample, `last_error` its error kind if any. -/
def update_profile_rt (s : ProbeSample) (p : ProfileRuntime) : ProfileRuntime :=
  { p with
      last_sample := some s
      last_error :=
        match s.result with
        | ProbeResult.ok => none
        | ProbeResult.err e => some e.kind }

/-- `target.profiles.iter_mut().find(|p| p.config.id == sample.profile_id)`
(state.rs lines 223-227) followed by the update: the first profile with a
matching id is updated; the Bool reports whether one was found. -/
def apply_to_profiles (s : ProbeSample) :
    List ProfileRuntime → List ProfileRuntime × Bool
  | [] => ([], false)
  | p :: rest =>
      if p.id = s.profile_id then (update_profile_rt s p :: rest, true)
      else
        let r := apply_to_profiles s rest
        (p :: r.1, r.2)

/-- `self.targets.iter_mut().find(|t| t.config.id == sample.target_id)`
(state.rs lines 215-219) and the body run on the first match: `last_ip`
is updated from the sample's remote address unconditionally on a target
match, the profile update runs if a profile matches, and
`some max_points` reports that the store push must happen. -/
def apply_to_targets (s : ProbeSample) :
    List TargetRuntime → List TargetRuntime × Option Nat
  | [] => ([], none)
  | t :: rest =>
      if t.id = s.target_id then
        let t1 := { t with last_ip := last_ip_after s t.last_ip }
        let pr := apply_to_profiles s t.profiles
        if pr.2 then
          ({ t1 with profiles := pr.1 } :: rest, some t.max_points_per_window)
        else
          ({ t1 with profiles := pr.1 } :: rest, none)
      else
        let r := apply_to_targets s rest
        (t :: r.1, r.2)

/-- `AppState::apply_sample` (state.rs lines 209-237): find the target,
update it, and push into the `MetricsStore` under the sample's key with
the target's `max_points_per_window` — only when both the target and one
of its profiles match. -/
def AppState.apply_sample (st : AppState) (s : ProbeSample) : AppState :=
  let r := apply_to_targets s st.targets
  match r.2 with
  | some max_points =>
      { metrics :=
          st.metrics.push_sample
            { target_id := s.target_id, profile_id := s.profile_id } s
            max_points
        targets := r.1 }
  | none => { metrics := st.metrics, targets := r.1 }

theorem apply_to_profiles_no_match (s : ProbeSample) :
    ∀ ps : List ProfileRuntime, (∀ p ∈ ps, p.id ≠ s.profile_id) →
      apply_to_profiles s ps = (ps, false) := by
  intro ps
  induction ps with
  | nil => intro _; rfl
  | cons p rest ih =>
    intro h
    have hp : p.id ≠ s.profile_id := h p (List.mem_cons_self p rest)
    have hrest := ih (fun q hq => h q (List.mem_cons_of_mem p hq))
    simp [apply_to_profiles, hp, hrest]

theorem apply_to_targets_no_match (s : ProbeSample) :
    ∀ ts : List TargetRuntime, (∀ t ∈ ts, t.id ≠ s.target_id) →
      apply_to_targets s ts = (ts, none) := by
  intro ts
  induction ts with
  | nil => intro _; rfl
  | cons t rest ih =>
    intro h
    have ht : t.id ≠ s.target_id := h t (List.mem_cons_self t rest)
    have hrest := ih (fun u hu => h u (List.mem_cons_of_mem t hu))
    simp [apply_to_targets, ht, hrest]

theorem apply_to_targets_found (s : ProbeSample) (t : TargetRuntime)
    (post : List TargetRuntime) (hid : t.id = s.target_id)
    (hprof : ∀ p ∈ t.profiles, p.id ≠ s.profile_id) :
    ∀ pre : List TargetRuntime, (∀ u ∈ pre, u.id ≠ s.target_id) →
      apply_to_targets s (pre ++ t :: post)
        = (pre ++ { t with last_ip := last_ip_after s t.last_ip } :: post,
            none) := by
  intro pre
  induction pre with
  | nil =>
    intro _
    have hpr := apply_to_profiles_no_match s t.profiles hprof
    simp [apply_to_targets, hid, hpr]
  | cons u rest ih =>
    intro h
    have hu : u.id ≠ s.target_id := h u (List.mem_cons_self u rest)
    have hrest := ih (fun v hv => h v (List.mem_cons_of_mem u hv))
    simp [apply_to_targets, hu, hrest]

/-- C10 (frame effect of `apply_sample`): when the sample's `target_id`
matches a current target but none of that target's profiles match its
`profile_id`, only that target's `last_ip` changes (taken from the
sample's remote address when present); the `MetricsStore`, every
profile's `last_sample`/`last_error`, and all other targets are
untouched.  When no target matches, the whole state is unchanged. -/
theorem apply_sample_frame (st : AppState) (s : ProbeSample) :
    ((∀ t ∈ st.targets, t.id ≠ s.target_id) → st.apply_sample s = st)
      ∧ (∀ (pre : List TargetRuntime) (t : TargetRuntime)
          (post : List TargetRuntime),
          st.targets = pre ++ t :: post →
          (∀ u ∈ pre, u.id ≠ s.target_id) →
          t.id = s.target_id →
          (∀ p ∈ t.profiles, p.id ≠ s.profile_id) →
          (st.apply_sample s).metrics = st.metrics
            ∧ (st.apply_sample s).targets
              = pre ++ { t with last_ip := last_ip_after s t.last_ip }
                  :: post) := by
  constructor
  · intro h
    have hr := apply_to_targets_no_match s st.targets h
    simp [AppState.apply_sample, hr]
  · intro pre t post hsplit hpre hid hprof
    have hr := apply_to_targets_found s t post hid hprof pre hpre
    constructor
    · simp [AppState.apply_sample, hsplit, hr]
    · simp [AppState.apply_sample, hsplit, hr]

/-- Concrete runtime state for the `apply_sample` witness: one target
(id 7, 16 max points) holding one profile (id 3), empty store. -/
def witness_profile : ProfileRuntime :=
  { id := 3, last_sample := none, last_error := none }

/-- The witness target. -/
def witness_target : TargetRuntime :=
  { id := 7, max_points_per_window := 16, last_ip := none,
    profiles := [witness_profile] }

/-- The witness application state. -/
def witness_app_state : AppState :=
  { metrics := MetricsStore.new, targets := [witness_target] }

/-- The witness sample: matches target 7 but no profile (99), and carries
a remote address with ip 42. -/
def witness_sample : ProbeSample :=
  { ts := 5, target_id := 7, profile_id := 99,
    result := ProbeResult.ok, remote := some { ip := 42, port := 443 } }

/-- Witness for `apply_sample_frame`: with target matched but no profile
matched, the store stays untouched and only `last_ip` changes (to 42). -/
theorem apply_sample_frame_witness :
    (witness_app_state.apply_sample witness_sample).metrics
        = witness_app_state.metrics
      ∧ (witness_app_state.apply_sample witness_sample).targets
        = [] ++ { witness_target with
              last_ip := last_ip_after witness_sample witness_target.last_ip }
            :: [] :=
  (apply_sample_frame witness_app_state witness_sample).2 [] witness_target
    [] rfl (by intro u hu; simp at hu) rfl
    (by
      intro p hp
      simp only [witness_target, List.mem_singleton] at hp
      rw [hp]
      decide)

end HttPulse
